import Mathlib

/-!
Shallow embedding of the `sem_safe` crate (a safety layer over POSIX
semaphores) and verification of its specification claims.

The embedding models:
 * `InitOnce` (src/non_named/init_once.rs): the tri-state once-gate built on
   an `AtomicU8` with a compare-and-exchange.  The atomic CAS serializes all
   concurrent `call_once` invocations, so a concurrent execution is embedded
   as the serialization order of the CAS operations: a list of calls applied
   in sequence to the gate state.
 * `unnamed::Semaphore` (src/unnamed.rs): the Container with the same
   tri-state machine inlined, whose guarded work is the OS `sem_init` call
   (modelled by its integer return value), plus `sem_ref`, `try_init_with`
   and the `Drop` teardown.
 * `anonymous::Semaphore::init_with` (src/anonymous.rs): the assert-guarded
   wrapper over the once-gate.
 * `named::Semaphore` (src/named.rs): `open` with its EINTR retry loop
   (the OS `sem_open` outcomes are modelled as the list of results the OS
   would hand back to the successive retries), `unlink`, and the anonymous
   name allocator `anonymous_with` with its base64url name generation and
   10-attempt retry budget.
 * `SemaphoreRef` (src/refs.rs): the operation surface `post` / `wait` /
   `try_wait` as the translation of the OS return value (0 vs -1, with the
   process-global `errno` read as the error context), and its `PartialEq`
   which compares the raw `sem_t` pointers.
-/

namespace SemSafe

/-! ## Once-Gate state (shared by `InitOnce` and `unnamed::Semaphore`)

The Rust code stores `UNINITIALIZED = 0`, `PREPARING = 1`, `READY = 2` in an
`AtomicU8`; we model the three values as an inductive state. -/

inductive GateState where
  | uninitialized
  | preparing
  | ready
deriving DecidableEq, Repr

namespace InitOnce

/-- Result of one `InitOnce::call_once(f)` invocation, as the Rust function
returns it: `none` when the CAS lost (some other call already moved the gate
out of `Uninitialized`), `some r` when this call won the CAS and ran `f`,
where `r` is `f`'s own `Result`.  We model `f` by its result `fnResult`
(`Except e t` for Rust's `Result<T, E>`), and additionally record the boolean
`executed`: whether this call ran `f` at all. -/
structure CallOutcome (e t : Type) where
  executed : Bool
  output : Option (Except e t)
deriving Repr

/-- `InitOnce::call_once` (src/non_named/init_once.rs lines 18-34): a CAS
from `UNINITIALIZED` to `PREPARING`; the winner runs `f` and stores `READY`
only when `f` returned `Ok`; every loser returns `None` without running
anything. Returns the new gate state together with the call's outcome. -/
def callOnce {e t : Type} (s : GateState) (fnResult : Except e t) :
    GateState × CallOutcome e t :=
  match s with
  | .uninitialized =>
    match fnResult with
    | .ok v => (.ready, ⟨true, some (.ok v)⟩)
    | .error err => (.preparing, ⟨true, some (.error err)⟩)
  | s => (s, ⟨false, none⟩)

/-- `InitOnce::is_ready` (src/non_named/init_once.rs lines 38-42). -/
def isReady (s : GateState) : Bool := s = .ready

/-- A serialized run of many `call_once` invocations on the same gate: the
i-th list element is the result the i-th call's `f` would produce if run.
Returns the final gate state and the outcome of each call in order. -/
def runCalls {e t : Type} (s : GateState) :
    List (Except e t) → GateState × List (CallOutcome e t)
  | [] => (s, [])
  | f :: fs =>
    let (s1, out) := callOnce s f
    let (s2, outs) := runCalls s1 fs
    (s2, out :: outs)

end InitOnce

namespace Unnamed

/-- Result of `unnamed::Semaphore::init_with` (Rust `Result<SemaphoreRef, bool>`):
`Except.ok` stands for `Ok(sem_ref)`, `Except.error b` for `Err(b)`. -/
abbrev InitWithResult := Except Bool Unit

/-- `unnamed::Semaphore::init_with` (src/unnamed.rs lines 105-143): a CAS
from `UNINITIALIZED` to `PREPARING`; the winner calls the OS `sem_init`
(modelled by its return value `semInitRet`: `0` on success, nonzero /
`-1` on failure with `errno` set); on `0` the state is stored `READY` and a
`SemaphoreRef` is returned, otherwise `Err(false)` with the state left at
`PREPARING`; a CAS loser returns `Err(true)`.  Returns the new state and the
call's result. -/
def initWith (s : GateState) (semInitRet : Int) : GateState × InitWithResult :=
  match s with
  | .uninitialized =>
    if semInitRet = 0 then (.ready, .ok ()) else (.preparing, .error false)
  | s => (s, .error true)

/-- `unnamed::Semaphore::ready_ref` (src/unnamed.rs lines 159-175): `Some`
of the (pinned reference to the) inner `sem_t` exactly when the state loads
`READY`. -/
def readyRef (s : GateState) : Option Unit :=
  if s = .ready then some () else none

/-- `unnamed::Semaphore::sem_ref` (src/unnamed.rs lines 153-155). -/
def semRef (s : GateState) : Except Unit Unit :=
  match readyRef s with
  | some r => .ok r
  | none => .error ()

/-- The `Drop` impl for `unnamed::Semaphore` (src/unnamed.rs lines 247-264):
`sem_destroy` is called exactly when `ready_ref` yields `Some`.  The
returned `Bool` records whether the OS destroy call was performed; drop
itself returns nothing and raises no error in either case. -/
def dropDestroys (s : GateState) : Bool :=
  (readyRef s).isSome

/-- One observation (`sem_ref` poll) per iteration of the `Err(true)` loop
of `try_init_with` (src/unnamed.rs lines 199-211): `obs i` is the gate state
this thread's i-th load of the atomic observes (it may change under us, as
the initializing thread progresses).  The loop polls, then saturating-
decrements `limit`, and gives up when the decremented limit reaches `0`, so
it performs `max limit 1` polls. -/
def pollLoop (obs : Nat → GateState) : Nat → Nat → Option Unit
  | i, 0 =>
    match semRef (obs i) with
    | .ok r => some r
    | .error _ => none
  | i, 1 =>
    match semRef (obs i) with
    | .ok r => some r
    | .error _ => none
  | i, n + 2 =>
    match semRef (obs i) with
    | .ok r => some r
    | .error _ => pollLoop obs (i + 1) (n + 1)

/-- `unnamed::Semaphore::try_init_with` (src/unnamed.rs lines 191-214, and
the identical default method `non_named::Semaphore::try_init_with`,
src/non_named.rs lines 76-99): first calls `init_with` — performing the
initialization itself when the gate is still `Uninitialized` — then, on
`Err(true)`, spin-polls `sem_ref` as `pollLoop`; on `Err(false)` returns
`None`.  The first component records whether this call itself attempted the
OS initialization (won the CAS). -/
def tryInitWith (s : GateState) (semInitRet : Int) (limit : Nat)
    (obs : Nat → GateState) : Bool × Option Unit :=
  match (initWith s semInitRet).2 with
  | .ok r => (true, some r)
  | .error false => (true, none)
  | .error true => (false, pollLoop obs 0 limit)

end Unnamed

namespace Anonymous

/-- Outcome of `anonymous::Semaphore::init_with` as observed by the caller:
either the `assert!(!is_shared, ...)` panicked, or the function returned
`Ok(sem_ref)` / `Err(true)` / `Err(false)`. -/
inductive InitOutcome where
  | panicked
  | okRef
  | errAlready
  | errFailed
deriving DecidableEq, Repr

/-- `anonymous::Semaphore::init_with` (src/anonymous.rs lines 86-112): the
very first statement is `assert!(!is_shared, ...)`, so `is_shared == true`
panics before the once-gate is even consulted; otherwise the gate's
`call_once` runs `named::Semaphore::anonymous_with(sem_count)` (modelled by
whether it succeeds, `anonOk`), and the result is mapped
`Some(Ok(())) ↦ Ok(ref)`, `Some(Err(())) ↦ Err(false)`, `None ↦ Err(true)`.
`anonOk sem_count` models whether `anonymous_with(sem_count)` would succeed.
Returns the new gate state and the outcome. -/
def initWith (isShared : Bool) (semCount : Nat) (gate : GateState)
    (anonOk : Nat → Bool) : GateState × InitOutcome :=
  if isShared then (gate, .panicked)
  else
    let fnResult : Except Unit Unit :=
      if anonOk semCount then .ok () else .error ()
    let (gate1, out) := InitOnce.callOnce gate fnResult
    match out.output with
    | some (.ok ()) => (gate1, .okRef)
    | some (.error ()) => (gate1, .errFailed)
    | none => (gate1, .errAlready)

end Anonymous

namespace Refs

/-- Errno values used by the POSIX semaphore service (Linux numbering; the
numbers themselves are irrelevant, only their distinctness matters). -/
def EINTR : Nat := 4
def EAGAIN : Nat := 11
def EEXIST : Nat := 17
def ENOENT : Nat := 2

/-- One OS-call outcome as the C ABI presents it: the `int` return value
together with the process-global `errno` left set when the return value
signals failure. -/
structure OsRet where
  ret : Int
  errno : Nat
deriving DecidableEq, Repr

/-- The uniform translation this layer applies to `sem_post` / `sem_wait` /
`sem_trywait` / `sem_unlink` returns (src/refs.rs lines 110-158,
src/named.rs lines 144-149): `0` becomes `Ok(())`; anything else (the OS
contract only ever produces `-1`) becomes `Err`, with the process-global
`errno` — read immediately after the failing call — as the error's
classification. -/
def translate (r : OsRet) : Except Nat Unit :=
  if r.ret = 0 then .ok () else .error r.errno

/-- `SemaphoreRef::post` (src/refs.rs lines 110-118), given the outcome of
the underlying `sem_post` call. -/
def post (r : OsRet) : Except Nat Unit := translate r

/-- `SemaphoreRef::wait` (src/refs.rs lines 130-138), given the outcome of
the underlying `sem_wait` call. -/
def wait (r : OsRet) : Except Nat Unit := translate r

/-- The OS `sem_trywait` contract on a semaphore whose current count is
`count` (§6 of the spec, POSIX sem_trywait): it always returns immediately
(never blocks — modelled by being a total function of the count); when the
count is zero it returns `-1` with `errno = EAGAIN` and leaves the count
unchanged, otherwise it returns `0` and decrements the count. -/
def osTryWait (count : Nat) : OsRet × Nat :=
  if count = 0 then (⟨-1, EAGAIN⟩, count) else (⟨0, 0⟩, count - 1)

/-- `SemaphoreRef::try_wait` (src/refs.rs lines 150-158) composed with the
OS `sem_trywait` contract: the layer's translation of the call's outcome,
together with the semaphore count afterwards. -/
def tryWait (count : Nat) : Except Nat Unit × Nat :=
  let (r, count1) := osTryWait count
  (translate r, count1)

/-- `impl PartialEq for SemaphoreRef` (src/refs.rs lines 179-185): two refs
compare equal exactly when their raw `sem_t *` pointers are equal
(`ptr::eq`).  Pointers are modelled as naturals. -/
def semaphoreRefEq (p q : Nat) : Bool := p == q

end Refs

namespace Named

/-- Outcome of one underlying `sem_open` call: a valid `sem_t *` handle, or
`SEM_FAILED` with the process-global `errno` set. -/
inductive OsOpenOutcome where
  | success (ptr : Nat)
  | failed (errno : Nat)
deriving DecidableEq, Repr

/-- `named::Semaphore::open` (src/named.rs lines 93-118): loops calling the
OS `sem_open`; on `SEM_FAILED` with `errno == EINTR` it `continue`s
(retries), on any other failure it breaks with `Err` (errno left as
context), on success it breaks with `Ok(handle)`.  The successive OS
outcomes the retries would receive are modelled as a list; `none` means the
list was exhausted while every entry was an EINTR failure (the Rust loop
would still be retrying). -/
def openSem : List OsOpenOutcome → Option (Except Nat Nat)
  | [] => none
  | o :: rest =>
    match o with
    | .success ptr => some (.ok ptr)
    | .failed errno =>
      if errno = Refs.EINTR then openSem rest else some (.error errno)

/-- `named::Semaphore::unlink` (src/named.rs lines 144-149), given the
outcome of the underlying `sem_unlink` call. -/
def unlink (r : Refs.OsRet) : Except Nat Unit := Refs.translate r

/-! ### The anonymous name allocator (`named::Semaphore::anonymous_with`,
src/named.rs lines 207-319) -/

/-- The base64url alphabet (`URL_SAFE_NO_PAD`), as the ASCII code of the
character for each 6-bit index: `A-Z`, `a-z`, `0-9`, `-`, `_`. -/
def b64urlChar (n : Nat) : Nat :=
  if n < 26 then 65 + n
  else if n < 52 then 97 + (n - 26)
  else if n < 62 then 48 + (n - 52)
  else if n = 62 then 45
  else 95

/-- Unpadded base64url encoding of a byte string (list of bytes as `Nat`s):
each 3-byte group yields 4 characters; a trailing 1-byte group yields 2 and
a trailing 2-byte group yields 3 (no `=` padding, per `URL_SAFE_NO_PAD`). -/
def b64urlEncode : List Nat → List Nat
  | [] => []
  | [b1] => [b64urlChar (b1 / 4), b64urlChar (b1 % 4 * 16)]
  | [b1, b2] =>
    [b64urlChar (b1 / 4), b64urlChar (b1 % 4 * 16 + b2 / 16),
     b64urlChar (b2 % 16 * 4)]
  | b1 :: b2 :: b3 :: rest =>
    b64urlChar (b1 / 4) :: b64urlChar (b1 % 4 * 16 + b2 / 16) ::
    b64urlChar (b2 % 16 * 4 + b3 / 64) :: b64urlChar (b3 % 64) ::
    b64urlEncode rest

/-- `UniqueName::RAND_LEN` (src/named.rs line 218): 16 bytes, 128 bits of
entropy. -/
def RAND_LEN : Nat := 16

/-- `UniqueName::INIT_UNIQUE` (src/named.rs lines 219-223): the fixed
compiled-in fallback used when `getrandom()` fails. -/
def INIT_UNIQUE : List Nat :=
  [0xCA, 0xFF, 0xDD, 0xCE, 0x94, 0x57, 0x7A, 0xF4, 0xCC, 0xAC, 0x86, 0xFF,
   0x42, 0x99, 0x12, 0xA6]

/-- `UniqueName::NAME_LEN` (src/named.rs lines 224-228): a leading byte, the
unpadded base64 encoding of 16 bytes (22 characters), and a trailing nul. -/
def NAME_LEN : Nat := 1 + 22 + 1

/-- `UniqueName::generate` (src/named.rs lines 238-270): the random bytes
for this attempt — `some r` when `getrandom` deposited `r`, `none` when it
failed and the buffer keeps its `INIT_UNIQUE` initialization — are base64url
encoded into the middle of the name buffer, between the leading `'/'` (byte
47, required by some OSs) and the terminating nul (byte 0, a valid C
string). -/
def generate (rand : Option (List Nat)) : List Nat :=
  47 :: b64urlEncode (rand.getD INIT_UNIQUE) ++ [0]

/-- The open request `anonymous_with` issues for each attempt
(src/named.rs lines 276-288): always `OpenFlags::Create` with
`exclusive = true`, `mode = 0o600` and `value = sem_count`, under the name
generated for this attempt. -/
structure Attempt where
  name : List Nat
  exclusive : Bool
  mode : Nat
  value : Nat
deriving DecidableEq, Repr

/-- `TRY_LIMIT` (src/named.rs line 273). -/
def TRY_LIMIT : Nat := 10

/-- The observable trace of one `anonymous_with` call: the open requests it
issued in order, the name it `unlink`ed (the successful attempt's name,
immediately after the exclusive open succeeded), and whether it returned
`Ok(handle)` (`some ()`) or gave up with `Err(())` (`none`). -/
structure AnonTrace where
  attempts : List Attempt
  unlinked : Option (List Nat)
  result : Option Unit
deriving DecidableEq, Repr

/-- The `for _ in 0 .. TRY_LIMIT` loop of `anonymous_with` (src/named.rs
lines 282-308), with `fuel` iterations left and `i` attempts already made:
generates a name from this attempt's randomness `randAt i`, tries the
exclusive create-or-fail open (`openOk name i` says whether the OS lets it
succeed), and on success unlinks the name at once and returns the handle;
on failure regenerates and retries. -/
def anonLoop (semCount : Nat) (randAt : Nat → Option (List Nat))
    (openOk : List Nat → Nat → Bool) : Nat → Nat → AnonTrace
  | 0, _ => ⟨[], none, none⟩
  | fuel + 1, i =>
    let name := generate (randAt i)
    let att : Attempt := ⟨name, true, 0o600, semCount⟩
    if openOk name i then ⟨[att], some name, some ()⟩
    else
      let t := anonLoop semCount randAt openOk fuel (i + 1)
      ⟨att :: t.attempts, t.unlinked, t.result⟩

/-- `named::Semaphore::anonymous_with(sem_count)` (src/named.rs lines
207-319): the retry loop run with the full `TRY_LIMIT` budget, starting at
attempt 0. -/
def anonymousWith (semCount : Nat) (randAt : Nat → Option (List Nat))
    (openOk : List Nat → Nat → Bool) : AnonTrace :=
  anonLoop semCount randAt openOk TRY_LIMIT 0

end Named

/-! ## Shared helper lemmas -/

/-- Once the gate has left `Uninitialized`, every further `call_once` loses
the CAS: it leaves the state unchanged, runs nothing, and returns `None`. -/
theorem InitOnce.runCalls_stuck {e t : Type} (s : GateState)
    (hs : s ≠ .uninitialized) (l : List (Except e t)) :
    InitOnce.runCalls s l = (s, List.replicate l.length ⟨false, none⟩) := by
  induction l with
  | nil => simp [InitOnce.runCalls]
  | cons f fs ih =>
    have hc : InitOnce.callOnce s f = (s, ⟨false, none⟩) := by
      cases s with
      | uninitialized => exact absurd rfl hs
      | preparing => rfl
      | ready => rfl
    simp [InitOnce.runCalls, hc, ih, List.replicate_succ]

/-- No `call_once` transition ever produces the `Uninitialized` state. -/
theorem InitOnce.callOnce_ne_uninitialized {e t : Type} (s : GateState)
    (f : Except e t) : (InitOnce.callOnce s f).1 ≠ .uninitialized := by
  cases s with
  | uninitialized => cases f <;> simp [InitOnce.callOnce]
  | preparing => simp [InitOnce.callOnce]
  | ready => simp [InitOnce.callOnce]

/-! ## Claims -/

/-- C1: Among all serialized `call_once` invocations on one `InitOnce` gate
starting from `Uninitialized`, exactly the first (the CAS winner, which
moves the gate from `Uninitialized` to `Preparing`) executes its `init_fn`
and receives `Some` of that function's result; every later call — whether
the winner's attempt is in flight, committed, or failed — executes nothing
and receives `None`.  In particular the number of calls that executed an
`init_fn`, and the number that received `Some`, are both exactly one. -/
theorem c1_call_once_exactly_one_winner {e t : Type} (f : Except e t)
    (fs : List (Except e t)) :
    (InitOnce.runCalls GateState.uninitialized (f :: fs)).2 =
      ⟨true, some f⟩ :: List.replicate fs.length ⟨false, none⟩ ∧
    (InitOnce.runCalls GateState.uninitialized (f :: fs)).2.countP
      (fun o => o.executed) = 1 ∧
    (InitOnce.runCalls GateState.uninitialized (f :: fs)).2.countP
      (fun o => o.output.isSome) = 1 := by
  have hrun : (InitOnce.runCalls GateState.uninitialized (f :: fs)).2 =
      ⟨true, some f⟩ :: List.replicate fs.length ⟨false, none⟩ := by
    cases f with
    | ok v =>
      simp only [InitOnce.runCalls,
        show InitOnce.callOnce GateState.uninitialized
            (Except.ok v : Except e t) =
          (GateState.ready, ⟨true, some (Except.ok v)⟩) from rfl,
        InitOnce.runCalls_stuck GateState.ready (by simp) fs]
    | error w =>
      simp only [InitOnce.runCalls,
        show InitOnce.callOnce GateState.uninitialized
            (Except.error w : Except e t) =
          (GateState.preparing, ⟨true, some (Except.error w)⟩) from rfl,
        InitOnce.runCalls_stuck GateState.preparing (by simp) fs]
  have hrep : ∀ (p : InitOnce.CallOutcome e t → Bool),
      p ⟨false, none⟩ = false →
      (List.replicate fs.length
        (⟨false, none⟩ : InitOnce.CallOutcome e t)).countP p = 0 := by
    intro p hp
    refine List.countP_eq_zero.mpr ?_
    intro a ha
    rw [List.eq_of_mem_replicate ha]
    simp [hp]
  refine ⟨hrun, ?_, ?_⟩ <;>
  · rw [hrun, List.countP_cons, hrep _ rfl]
    simp

/-- C2: `unnamed::Semaphore::init_with` returns `Err(true)` exactly when the
gate had already left `Uninitialized` (another call won the initialization
race, finished or not); it returns `Err(false)` exactly when this call won
the race and the OS `sem_init` call itself failed (returned nonzero, with
the OS error code left in `errno`); and otherwise — this call won and
`sem_init` returned 0 — it succeeds, moving the state to `Ready` and
returning a `SemaphoreRef` (the Ready Reference that `sem_ref` hands out in
the `Ready` state). -/
theorem c2_init_with_error_cases (s : GateState) (r : Int) :
    ((Unnamed.initWith s r).2 = .error true ↔ s ≠ .uninitialized) ∧
    ((Unnamed.initWith s r).2 = .error false ↔
      (s = .uninitialized ∧ r ≠ 0)) ∧
    ((Unnamed.initWith s r).2 = .ok () ↔ (s = .uninitialized ∧ r = 0)) ∧
    ((Unnamed.initWith s r).2 = .ok () →
      (Unnamed.initWith s r).1 = .ready ∧
      Unnamed.semRef (Unnamed.initWith s r).1 = .ok ()) := by
  cases s with
  | uninitialized =>
    by_cases hr : r = 0 <;>
      simp [Unnamed.initWith, Unnamed.semRef, Unnamed.readyRef, hr]
  | preparing => simp [Unnamed.initWith]
  | ready => simp [Unnamed.initWith]

/-- C3: If the winning initialization attempt fails, the state is left at
`Preparing` forever: for `InitOnce`, a winner whose `init_fn` errors leaves
the gate `Preparing`, after which `is_ready` is `false` and every further
sequence of `call_once`s returns `None` to each call, executes nothing, and
leaves the state `Preparing`; for `unnamed::Semaphore`, a winner whose
`sem_init` returns nonzero gets `Err(false)` and leaves the state
`Preparing`, after which `sem_ref` never reports ready and every further
`init_with` returns `Err(true)` without re-attempting; and no transition of
either machine ever produces `Uninitialized` again. -/
theorem c3_failed_init_sticks_in_preparing {e t : Type} (err : e)
    (calls : List (Except e t)) (r : Int) (hr : r ≠ 0) :
    InitOnce.callOnce GateState.uninitialized
      (Except.error err : Except e t) =
      (.preparing, ⟨true, some (.error err)⟩) ∧
    InitOnce.isReady .preparing = false ∧
    InitOnce.runCalls GateState.preparing calls =
      (.preparing, List.replicate calls.length ⟨false, none⟩) ∧
    (∀ (s : GateState) (f : Except e t),
      (InitOnce.callOnce s f).1 ≠ .uninitialized) ∧
    Unnamed.initWith .uninitialized r = (.preparing, .error false) ∧
    Unnamed.semRef .preparing = .error () ∧
    (∀ r2 : Int, Unnamed.initWith .preparing r2 = (.preparing, .error true)) ∧
    (∀ (s : GateState) (r2 : Int),
      (Unnamed.initWith s r2).1 ≠ .uninitialized) := by
  refine ⟨rfl, rfl, InitOnce.runCalls_stuck _ (by simp) calls,
    InitOnce.callOnce_ne_uninitialized, ?_, rfl, fun r2 => rfl, ?_⟩
  · simp [Unnamed.initWith, hr]
  · intro s r2
    cases s with
    | uninitialized =>
      by_cases hr2 : r2 = 0 <;> simp [Unnamed.initWith, hr2]
    | preparing => simp [Unnamed.initWith]
    | ready => simp [Unnamed.initWith]

/-- C3 witness: instantiated at `err = ()`, two subsequent calls, and
`sem_init` return value 1. -/
theorem c3_failed_init_sticks_in_preparing_witness :
    (1 : Int) ≠ 0 ∧
    (InitOnce.callOnce GateState.uninitialized
        (Except.error () : Except Unit Unit) =
        (.preparing, ⟨true, some (.error ())⟩) ∧
      InitOnce.isReady .preparing = false ∧
      InitOnce.runCalls GateState.preparing
          [Except.ok (), Except.error ()] =
        (.preparing, List.replicate 2 ⟨false, none⟩) ∧
      (∀ (s : GateState) (f : Except Unit Unit),
        (InitOnce.callOnce s f).1 ≠ .uninitialized) ∧
      Unnamed.initWith .uninitialized 1 = (.preparing, .error false) ∧
      Unnamed.semRef .preparing = .error () ∧
      (∀ r2 : Int,
        Unnamed.initWith .preparing r2 = (.preparing, .error true)) ∧
      (∀ (s : GateState) (r2 : Int),
        (Unnamed.initWith s r2).1 ≠ .uninitialized)) :=
  ⟨by decide,
    c3_failed_init_sticks_in_preparing () [Except.ok (), Except.error ()] 1
      (by decide)⟩

/-- C4: The `Drop` teardown of `unnamed::Semaphore` performs the OS
`sem_destroy` call exactly when the state is `Ready`; a container still
`Uninitialized` (never initialized) or stuck in `Preparing` (failed
initialization) performs no OS destroy call — teardown simply returns,
with no crash and no error, in every state. -/
theorem c4_drop_destroys_iff_ready :
    (∀ s : GateState, Unnamed.dropDestroys s = true ↔ s = .ready) ∧
    Unnamed.dropDestroys .uninitialized = false ∧
    Unnamed.dropDestroys .preparing = false := by
  refine ⟨fun s => ?_, rfl, rfl⟩
  cases s <;> simp [Unnamed.dropDestroys, Unnamed.readyRef]

/-- C9: `anonymous::Semaphore::init_with` panics — via the leading
`assert!(!is_shared, ...)`, before the once-gate is even consulted or
anything else runs — exactly when `is_shared == true`, for every
`sem_count`, every gate state, and every behaviour of the underlying
`anonymous_with`; a shared request is never reported as a recoverable
`Err` (nor as `Ok`), and conversely a non-shared request never panics. -/
theorem c9_shared_anonymous_panics (isShared : Bool) (semCount : Nat)
    (gate : GateState) (anonOk : Nat → Bool) :
    ((Anonymous.initWith isShared semCount gate anonOk).2 =
        .panicked ↔ isShared = true) ∧
    (isShared = true →
      Anonymous.initWith isShared semCount gate anonOk = (gate, .panicked)) := by
  cases isShared with
  | true => simp [Anonymous.initWith]
  | false =>
    cases gate <;> by_cases h : anonOk semCount = true <;>
      simp_all [Anonymous.initWith, InitOnce.callOnce]

/-- C10: `named::Semaphore::open` never lets an `EINTR` failure of the
underlying `sem_open` escape to its caller: every `EINTR` outcome is
consumed by an internal retry (`open` of the outcome list starting with an
`EINTR` failure equals `open` of the rest), so whenever `open` returns an
error, that error's code is not `EINTR`. -/
theorem c10_open_retries_eintr (outs : List Named.OsOpenOutcome) :
    (∀ e : Nat, Named.openSem outs = some (.error e) → e ≠ Refs.EINTR) ∧
    Named.openSem (.failed Refs.EINTR :: outs) = Named.openSem outs := by
  constructor
  · intro e he
    induction outs with
    | nil => simp [Named.openSem] at he
    | cons o rest ih =>
      cases o with
      | success p => simp [Named.openSem] at he
      | failed errno =>
        by_cases h : errno = Refs.EINTR
        · rw [Named.openSem, if_pos h] at he
          exact ih he
        · rw [Named.openSem, if_neg h] at he
          obtain ⟨rfl⟩ : errno = e := by
            simpa using he
          exact h
  · simp [Named.openSem]

/-- C10 witness: a first `sem_open` failing with `EINTR` followed by one
failing with `ENOENT` makes `open` return the `ENOENT` failure, which is
not `EINTR`. -/
theorem c10_open_retries_eintr_witness :
    Named.openSem [.failed Refs.EINTR, .failed Refs.ENOENT] =
      some (.error Refs.ENOENT) ∧
    Refs.ENOENT ≠ Refs.EINTR :=
  ⟨rfl,
    (c10_open_retries_eintr [.failed Refs.EINTR, .failed Refs.ENOENT]).1
      Refs.ENOENT rfl⟩

/-- C1 witness: a run of three serialized calls whose functions would return
`Ok(7)`, `Err(9)`, `Ok(3)`: only the first executes, and it gets its own
result back. -/
theorem c1_call_once_exactly_one_winner_witness :
    (InitOnce.runCalls GateState.uninitialized
        [Except.ok 7, Except.error 9, Except.ok 3]).2 =
      ⟨true, some (Except.ok 7)⟩ ::
        List.replicate 2 (⟨false, none⟩ : InitOnce.CallOutcome Nat Nat) :=
  (c1_call_once_exactly_one_winner (Except.ok 7)
    [Except.error 9, Except.ok 3]).1

/-- C2 witness: a first call with `sem_init` succeeding returns the Ready
Reference. -/
theorem c2_init_with_error_cases_witness :
    (Unnamed.initWith GateState.uninitialized 0).2 = .ok () :=
  ((c2_init_with_error_cases GateState.uninitialized 0).2.2.1).mpr ⟨rfl, rfl⟩

/-- C4 witness: a `Ready` container does get destroyed on drop. -/
theorem c4_drop_destroys_iff_ready_witness :
    Unnamed.dropDestroys GateState.ready = true :=
  (c4_drop_destroys_iff_ready.1 GateState.ready).mpr rfl

/-- C7: For the operations of this layer, an OS return of `0` maps to
`Ok` and anything else (the OS only produces `-1`) maps to a typed `Err`
whose classification is the process-global `errno` left by the failing
call: so for `post`, `wait`, and `unlink`; `try_wait` composed with the OS
`sem_trywait` contract on a zero-count semaphore fails with the would-block
classification `EAGAIN` without touching the count (and `sem_trywait` never
blocks: it is a total function of the count, decrementing it when it is
positive); and `open` maps an OS success to `Ok(handle)` and a
non-interrupted OS failure to `Err` with that `errno`. -/
theorem c7_zero_ok_minus_one_err (r : Refs.OsRet) (c : Nat) (hc : 0 < c) :
    (Refs.post r = .ok () ↔ r.ret = 0) ∧
    (∀ e, Refs.post r = .error e → r.ret ≠ 0 ∧ e = r.errno) ∧
    (Refs.wait r = .ok () ↔ r.ret = 0) ∧
    (∀ e, Refs.wait r = .error e → r.ret ≠ 0 ∧ e = r.errno) ∧
    (Named.unlink r = .ok () ↔ r.ret = 0) ∧
    (∀ e, Named.unlink r = .error e → r.ret ≠ 0 ∧ e = r.errno) ∧
    Refs.tryWait 0 = (.error Refs.EAGAIN, 0) ∧
    Refs.tryWait c = (.ok (), c - 1) ∧
    (∀ (p : Nat) (rest : List Named.OsOpenOutcome),
      Named.openSem (.success p :: rest) = some (.ok p)) ∧
    (∀ (e : Nat) (rest : List Named.OsOpenOutcome), e ≠ Refs.EINTR →
      Named.openSem (.failed e :: rest) = some (.error e)) := by
  have htr : ∀ q : Refs.OsRet,
      (Refs.translate q = .ok () ↔ q.ret = 0) ∧
      (∀ e, Refs.translate q = .error e → q.ret ≠ 0 ∧ e = q.errno) := by
    intro q
    constructor
    · by_cases h : q.ret = 0 <;> simp [Refs.translate, h]
    · intro e he
      by_cases h : q.ret = 0
      · rw [Refs.translate, if_pos h] at he
        exact absurd he (by simp)
      · rw [Refs.translate, if_neg h] at he
        exact ⟨h, by simpa using he.symm⟩
  refine ⟨(htr r).1, (htr r).2, (htr r).1, (htr r).2, (htr r).1, (htr r).2,
    rfl, ?_, fun p rest => rfl, fun e rest he => ?_⟩
  · have h0 : c ≠ 0 := Nat.pos_iff_ne_zero.mp hc
    simp [Refs.tryWait, Refs.osTryWait, Refs.translate, h0]
  · simp [Named.openSem, he]

/-- C7 witness: instantiated at the failing outcome `ret = -1`,
`errno = EAGAIN` and count 2. -/
theorem c7_zero_ok_minus_one_err_witness :
    0 < 2 ∧ Refs.tryWait 2 = (.ok (), 1) :=
  ⟨by decide, (c7_zero_ok_minus_one_err ⟨-1, Refs.EAGAIN⟩ 2 (by decide)).2.2.2.2.2.2.2.1⟩

/-- C8 counterexample: the claim "two `SemaphoreRef` handles are equal
exactly when they refer to the same underlying OS object" fails in the
situation the claim itself singles out — two handles obtained by
independently opening the same name twice.  Model that situation by the
object assignment sending every pointer to OS object `0`, with the two
opens returning distinct pointers `1` and `2`: the two refs denote the same
object, yet `PartialEq` (raw-pointer comparison) says they are unequal. -/
theorem c8_counterexample :
    ¬ (Refs.semaphoreRefEq 1 2 = true ↔
        (fun _ : Nat => (0 : Nat)) 1 = (fun _ : Nat => (0 : Nat)) 2) := by
  simp [Refs.semaphoreRefEq]

/-- C8 (amended): `SemaphoreRef` equality is identity of the raw `sem_t`
pointer (the handle), not of the underlying OS object: two refs compare
equal exactly when their pointers are equal, and pointer-equal refs always
denote the same underlying object under any assignment of objects to
pointers — but refs from two independent opens of the same name may hold
distinct pointers and compare unequal while denoting the same object
(which is exactly why `named::Semaphore` itself implements no equality,
src/named.rs lines 323-324). -/
theorem c8_ref_eq_is_pointer_identity (p q : Nat) :
    (Refs.semaphoreRefEq p q = true ↔ p = q) ∧
    (∀ objOf : Nat → Nat,
      Refs.semaphoreRefEq p q = true → objOf p = objOf q) := by
  constructor
  · simp [Refs.semaphoreRefEq]
  · intro objOf h
    have hpq : p = q := by simpa [Refs.semaphoreRefEq] using h
    rw [hpq]

/-- C8 witness: equal pointers compare equal. -/
theorem c8_ref_eq_is_pointer_identity_witness :
    Refs.semaphoreRefEq 5 5 = true :=
  (c8_ref_eq_is_pointer_identity 5 5).1.mpr rfl

/-- The `Err(true)` poll loop of `try_init_with` finds a reference exactly
when one of its polls — it performs `max limit 1` of them, the saturating
decrement making even `limit = 0` poll once — observes the `Ready` state. -/
theorem Unnamed.pollLoop_eq_some_iff (obs : Nat → GateState) :
    ∀ limit i : Nat, Unnamed.pollLoop obs i limit = some () ↔
      ∃ j, j < max limit 1 ∧ obs (i + j) = .ready := by
  have hhit : ∀ (i limit : Nat), obs i = .ready →
      Unnamed.pollLoop obs i limit = some () := by
    intro i limit h
    match limit with
    | 0 => simp [Unnamed.pollLoop, Unnamed.semRef, Unnamed.readyRef, h]
    | 1 => simp [Unnamed.pollLoop, Unnamed.semRef, Unnamed.readyRef, h]
    | n + 2 => simp [Unnamed.pollLoop, Unnamed.semRef, Unnamed.readyRef, h]
  have hmiss0 : ∀ i : Nat, obs i ≠ .ready →
      Unnamed.pollLoop obs i 0 = none := by
    intro i h
    simp [Unnamed.pollLoop, Unnamed.semRef, Unnamed.readyRef, h]
  have hmiss1 : ∀ i : Nat, obs i ≠ .ready →
      Unnamed.pollLoop obs i 1 = none := by
    intro i h
    simp [Unnamed.pollLoop, Unnamed.semRef, Unnamed.readyRef, h]
  have hmiss2 : ∀ (i n : Nat), obs i ≠ .ready →
      Unnamed.pollLoop obs i (n + 2) = Unnamed.pollLoop obs (i + 1) (n + 1) := by
    intro i n h
    simp [Unnamed.pollLoop, Unnamed.semRef, Unnamed.readyRef, h]
  intro limit
  induction limit using Nat.strong_induction_on with
  | _ limit ih =>
    intro i
    have hready : obs i = .ready →
        (Unnamed.pollLoop obs i limit = some () ↔
          ∃ j, j < max limit 1 ∧ obs (i + j) = .ready) := by
      intro h
      rw [hhit i limit h]
      exact ⟨fun _ => ⟨0, by omega, by rwa [Nat.add_zero]⟩, fun _ => rfl⟩
    match limit with
    | 0 =>
      by_cases h : obs i = .ready
      · exact hready h
      · rw [hmiss0 i h]
        constructor
        · intro hc
          exact absurd hc (by simp)
        · rintro ⟨j, hj, hobs⟩
          have hj0 : j = 0 := by omega
          subst hj0
          rw [Nat.add_zero] at hobs
          exact absurd hobs h
    | 1 =>
      by_cases h : obs i = .ready
      · exact hready h
      · rw [hmiss1 i h]
        constructor
        · intro hc
          exact absurd hc (by simp)
        · rintro ⟨j, hj, hobs⟩
          have hj0 : j = 0 := by omega
          subst hj0
          rw [Nat.add_zero] at hobs
          exact absurd hobs h
    | n + 2 =>
      by_cases h : obs i = .ready
      · exact hready h
      · rw [hmiss2 i n h, ih (n + 1) (by omega) (i + 1)]
        constructor
        · rintro ⟨j, hj, hobs⟩
          refine ⟨j + 1, by omega, ?_⟩
          have heq : i + (j + 1) = i + 1 + j := by omega
          rwa [heq]
        · rintro ⟨j, hj, hobs⟩
          match j with
          | 0 =>
            rw [Nat.add_zero] at hobs
            exact absurd hobs h
          | j1 + 1 =>
            refine ⟨j1, by omega, ?_⟩
            have heq : i + 1 + j1 = i + (j1 + 1) := by omega
            rwa [heq]

/-- C5 counterexample: the claim says `try_init_with` "only waits for
someone else's initialization rather than performing the initialization
itself", i.e. a call never performs the OS init (the first component of
the model, which records winning the CAS and calling `sem_init`, would
always be `false`).  But a call entering on an `Uninitialized` gate wins
the CAS and performs the initialization itself: at gate `Uninitialized`,
`sem_init` returning 0, `limit = 3`, with no other thread ever
initializing (every poll would observe `Preparing`), the call performs the
init and returns `Some`. -/
theorem c5_counterexample :
    ¬ (∀ (s : GateState) (r : Int) (limit : Nat) (obs : Nat → GateState),
        (Unnamed.tryInitWith s r limit obs).1 = false) := by
  intro h
  have hc := h .uninitialized 0 3 (fun _ => .preparing)
  simp [Unnamed.tryInitWith, Unnamed.initWith] at hc

/-- C5 (amended): `try_init_with(limit, ..)` behaves as follows.  If the
container is already `Ready` (so its polls observe `Ready` at once), it
returns `Some(ref)` immediately without performing any initialization.  If
the container is still `Uninitialized`, the call performs the
initialization itself (it wins the CAS and issues the OS `sem_init`),
returning `Some(ref)` if the OS call succeeds and `None` if it fails.  If
initialization is racing in another call (gate `Preparing` on entry), it
does not initialize, but busy-polls readiness — `max limit 1` polls, the
limit being saturating-decremented between polls — returning `Some(ref)`
as soon as a poll observes `Ready` and `None` if the budget runs out. -/
theorem c5_try_init_with_behaviour (s : GateState) (r : Int) (limit : Nat)
    (obs : Nat → GateState) (hready : s = .ready → obs 0 = .ready) :
    (s = .ready → Unnamed.tryInitWith s r limit obs = (false, some ())) ∧
    (s = .uninitialized →
      Unnamed.tryInitWith s r limit obs =
        (true, if r = 0 then some () else none)) ∧
    (s = .preparing →
      (Unnamed.tryInitWith s r limit obs).1 = false ∧
      ((Unnamed.tryInitWith s r limit obs).2 = some () ↔
        ∃ j, j < max limit 1 ∧ obs j = .ready)) := by
  refine ⟨?_, ?_, ?_⟩
  · intro hs
    subst hs
    have h0 := hready rfl
    have hfirst : Unnamed.pollLoop obs 0 limit = some () :=
      (Unnamed.pollLoop_eq_some_iff obs limit 0).mpr
        ⟨0, by omega, by simpa using h0⟩
    simp [Unnamed.tryInitWith, Unnamed.initWith, hfirst]
  · intro hs
    subst hs
    by_cases hr : r = 0 <;> simp [Unnamed.tryInitWith, Unnamed.initWith, hr]
  · intro hs
    subst hs
    have hloop : Unnamed.tryInitWith .preparing r limit obs =
        (false, Unnamed.pollLoop obs 0 limit) := by
      simp [Unnamed.tryInitWith, Unnamed.initWith]
    rw [hloop]
    refine ⟨rfl, ?_⟩
    simpa using Unnamed.pollLoop_eq_some_iff obs limit 0

/-- C5 witness for the amended claim: from `Preparing` with `limit = 2` and
the other thread's init observed complete at the second poll, the call
waits and gets the reference. -/
theorem c5_try_init_with_behaviour_witness :
    (GateState.preparing = .ready →
      (fun i => if i ≥ 1 then GateState.ready else .preparing) 0 = .ready) ∧
    ((Unnamed.tryInitWith .preparing 0 2
        (fun i => if i ≥ 1 then GateState.ready else .preparing)).2 = some () ↔
      ∃ j, j < max 2 1 ∧
        (fun i => if i ≥ 1 then GateState.ready else .preparing) j = .ready) :=
  ⟨fun h => absurd h (by simp),
    ((c5_try_init_with_behaviour .preparing 0 2
      (fun i => if i ≥ 1 then GateState.ready else .preparing)
      (fun h => absurd h (by simp))).2.2 rfl).2⟩

/-- Length of an unpadded base64url encoding: 4 characters per full 3-byte
group, plus 2 for a trailing single byte or 3 for a trailing byte pair. -/
theorem Named.b64urlEncode_length : ∀ l : List Nat,
    (Named.b64urlEncode l).length =
      4 * (l.length / 3) +
        (if l.length % 3 = 0 then 0 else l.length % 3 + 1)
  | [] => by simp [Named.b64urlEncode]
  | [b1] => by simp [Named.b64urlEncode]
  | [b1, b2] => by simp [Named.b64urlEncode]
  | b1 :: b2 :: b3 :: rest => by
    have ih := Named.b64urlEncode_length rest
    simp only [Named.b64urlEncode, List.length_cons, ih]
    split_ifs <;> omega

/-- Every name `UniqueName::generate` builds from well-sized randomness (16
bytes, or the 16-byte `INIT_UNIQUE` fallback) fills exactly the `NAME_LEN`
buffer: 24 bytes, starting with the `'/'` separator and ending with the
nul terminator. -/
theorem Named.generate_spec (rand : Option (List Nat))
    (h : ∀ x, rand = some x → x.length = Named.RAND_LEN) :
    (Named.generate rand).length = Named.NAME_LEN ∧
    (Named.generate rand).head? = some 47 ∧
    (Named.generate rand).getLast? = some 0 := by
  have hlen : (rand.getD Named.INIT_UNIQUE).length = 16 := by
    cases rand with
    | none => rfl
    | some x => simpa [Named.RAND_LEN] using h x rfl
  have henc : (Named.b64urlEncode (rand.getD Named.INIT_UNIQUE)).length = 22 := by
    rw [Named.b64urlEncode_length, hlen]
    decide
  refine ⟨?_, rfl, ?_⟩
  · simp [Named.generate, Named.NAME_LEN, henc]
  · show (47 :: (Named.b64urlEncode (rand.getD Named.INIT_UNIQUE) ++
      [0])).getLast? = some 0
    rw [← List.cons_append, List.getLast?_concat]

/-- Invariant of the `anonymous_with` retry loop, for any remaining budget
`fuel` and start index `i0`: at most `fuel` open attempts are made; the
j-th attempt (counting from `i0`) opens exactly the name generated from the
j-th randomness with `exclusive = true`, `mode = 0o600` and the requested
count; giving up (`Err`) happens only with the whole budget spent and
nothing unlinked; success unlinks precisely the last (successful) attempt's
name. -/
theorem Named.anonLoop_spec (semCount : Nat)
    (randAt : Nat → Option (List Nat)) (openOk : List Nat → Nat → Bool) :
    ∀ fuel i0 : Nat,
      (Named.anonLoop semCount randAt openOk fuel i0).attempts.length ≤ fuel ∧
      (∀ (j : Nat) (a : Named.Attempt),
        (Named.anonLoop semCount randAt openOk fuel i0).attempts[j]? = some a →
        a = ⟨Named.generate (randAt (i0 + j)), true, 0o600, semCount⟩) ∧
      ((Named.anonLoop semCount randAt openOk fuel i0).result = none →
        (Named.anonLoop semCount randAt openOk fuel i0).attempts.length =
          fuel ∧
        (Named.anonLoop semCount randAt openOk fuel i0).unlinked = none) ∧
      ((Named.anonLoop semCount randAt openOk fuel i0).result = some () →
        (Named.anonLoop semCount randAt openOk fuel i0).attempts ≠ [] ∧
        (Named.anonLoop semCount randAt openOk fuel i0).unlinked =
          ((Named.anonLoop semCount randAt openOk fuel
            i0).attempts.getLast?.map Named.Attempt.name)) := by
  intro fuel
  induction fuel with
  | zero =>
    intro i0
    refine ⟨by simp [Named.anonLoop], ?_, by simp [Named.anonLoop], ?_⟩
    · intro j a ha
      simp [Named.anonLoop] at ha
    · intro hr
      simp [Named.anonLoop] at hr
  | succ fuel ih =>
    intro i0
    cases hopen : openOk (Named.generate (randAt i0)) i0 with
    | true =>
      have hstep : Named.anonLoop semCount randAt openOk (fuel + 1) i0 =
          ⟨[⟨Named.generate (randAt i0), true, 0o600, semCount⟩],
            some (Named.generate (randAt i0)), some ()⟩ := by
        simp [Named.anonLoop, hopen]
      rw [hstep]
      refine ⟨by simp, ?_, by simp, ?_⟩
      · intro j a ha
        match j with
        | 0 =>
          simp only [List.getElem?_cons_zero, Option.some.injEq] at ha
          rw [← ha, Nat.add_zero]
        | j1 + 1 =>
          simp at ha
      · intro _
        exact ⟨by simp, by simp⟩
    | false =>
      have hstep : Named.anonLoop semCount randAt openOk (fuel + 1) i0 =
          ⟨⟨Named.generate (randAt i0), true, 0o600, semCount⟩ ::
              (Named.anonLoop semCount randAt openOk fuel (i0 + 1)).attempts,
            (Named.anonLoop semCount randAt openOk fuel (i0 + 1)).unlinked,
            (Named.anonLoop semCount randAt openOk fuel (i0 + 1)).result⟩ := by
        simp [Named.anonLoop, hopen]
      obtain ⟨ih1, ih2, ih3, ih4⟩ := ih (i0 + 1)
      rw [hstep]
      refine ⟨by simpa using ih1, ?_, ?_, ?_⟩
      · intro j a ha
        match j with
        | 0 =>
          simp only [List.getElem?_cons_zero, Option.some.injEq] at ha
          rw [← ha, Nat.add_zero]
        | j1 + 1 =>
          rw [List.getElem?_cons_succ] at ha
          rw [ih2 j1 a ha]
          have heq : i0 + 1 + j1 = i0 + (j1 + 1) := by omega
          rw [heq]
      · intro hres
        simp only at hres
        obtain ⟨hlen, hunl⟩ := ih3 hres
        exact ⟨by simp [hlen], hunl⟩
      · intro hres
        simp only at hres
        obtain ⟨hne, hunl⟩ := ih4 hres
        refine ⟨by simp, ?_⟩
        obtain ⟨x, xs, hxs⟩ : ∃ x xs,
            (Named.anonLoop semCount randAt openOk fuel (i0 + 1)).attempts =
              x :: xs := by
          cases hcase : (Named.anonLoop semCount randAt openOk fuel
              (i0 + 1)).attempts with
          | nil => exact absurd hcase hne
          | cons x xs => exact ⟨x, xs, rfl⟩
        simp only [hxs] at hunl ⊢
        rw [List.getLast?_cons_cons]
        exact hunl

/-- C6: Each call of `anonymous_with(sem_count)` makes at most `TRY_LIMIT`
(10) open attempts; the j-th attempt opens the name generated from the j-th
draw of 128 bits (16 bytes) of randomness — or from the fixed compiled-in
`INIT_UNIQUE` constant when the randomness source failed — base64url-
encoded into the bounded `NAME_LEN` (24-byte) buffer with leading `'/'`
and trailing nul, using an exclusive create-or-fail open with restrictive
mode `0o600` and initial value `sem_count`; if it returns the handle it has
immediately unlinked exactly the successfully-opened name; and if it
returns an error it made all 10 attempts (each failed) and unlinked
nothing. -/
theorem c6_anonymous_allocator (semCount : Nat)
    (randAt : Nat → Option (List Nat)) (openOk : List Nat → Nat → Bool)
    (hr : ∀ (i : Nat) (x : List Nat), randAt i = some x →
      x.length = Named.RAND_LEN) :
    (Named.anonymousWith semCount randAt openOk).attempts.length ≤
      Named.TRY_LIMIT ∧
    (∀ (j : Nat) (a : Named.Attempt),
      (Named.anonymousWith semCount randAt openOk).attempts[j]? = some a →
      a.name = Named.generate (randAt j) ∧
      a.name.length = Named.NAME_LEN ∧
      a.name.head? = some 47 ∧
      a.name.getLast? = some 0 ∧
      a.exclusive = true ∧ a.mode = 0o600 ∧ a.value = semCount ∧
      (randAt j = none →
        a.name = 47 :: Named.b64urlEncode Named.INIT_UNIQUE ++ [0])) ∧
    ((Named.anonymousWith semCount randAt openOk).result = none →
      (Named.anonymousWith semCount randAt openOk).attempts.length =
        Named.TRY_LIMIT ∧
      (Named.anonymousWith semCount randAt openOk).unlinked = none) ∧
    ((Named.anonymousWith semCount randAt openOk).result = some () →
      (Named.anonymousWith semCount randAt openOk).unlinked =
        ((Named.anonymousWith semCount randAt
          openOk).attempts.getLast?.map Named.Attempt.name)) := by
  obtain ⟨h1, h2, h3, h4⟩ :=
    Named.anonLoop_spec semCount randAt openOk Named.TRY_LIMIT 0
  refine ⟨h1, ?_, h3, fun hres => (h4 hres).2⟩
  intro j a ha
  have hj := h2 j a ha
  rw [Nat.zero_add] at hj
  obtain ⟨hg1, hg2, hg3⟩ := Named.generate_spec (randAt j) (hr j)
  subst hj
  exact ⟨rfl, hg1, hg2, hg3, rfl, rfl, rfl, fun hnone => by
    show Named.generate (randAt j) = _
    rw [hnone]
    rfl⟩

/-- C6 witness: 16 zero bytes of randomness each attempt, the OS letting
the second attempt succeed. -/
theorem c6_anonymous_allocator_witness :
    (∀ (i : Nat) (x : List Nat),
      (fun _ : Nat => some (List.replicate 16 0)) i = some x →
      x.length = Named.RAND_LEN) ∧
    (Named.anonymousWith 5 (fun _ => some (List.replicate 16 0))
      (fun _ i => i == 1)).attempts.length ≤ Named.TRY_LIMIT :=
  ⟨fun i x h => by cases h; rfl,
    (c6_anonymous_allocator 5 (fun _ => some (List.replicate 16 0))
      (fun _ i => i == 1) (fun i x h => by cases h; rfl)).1⟩

/-- C9 witness: a shared request panics even on a fresh gate. -/
theorem c9_shared_anonymous_panics_witness :
    (Anonymous.initWith true 0 GateState.uninitialized
      (fun _ => true)).2 = .panicked :=
  ((c9_shared_anonymous_panics true 0 GateState.uninitialized
    (fun _ => true)).1).mpr rfl

end SemSafe
